import Mathlib

/-!
Verification of the `autocopy` NAND-backup extraction pipeline
(`src/autocopy.py`) against its natural-language specification.

The Python source is shallowly embedded: byte strings become `List Nat`,
Python strings (filenames, paths) become `List Char`, the current working
directory becomes an association list of filename/content pairs, and
exception-raising code is embedded in `Except`.  External collaborators
(the pyctr crypto engine and NAND/FAT capabilities) are modelled as
explicit environment records whose fields describe the outcome of each
collaborator call.
-/

/-- Bytes of a Python `bytes` object, one `Nat` per byte. -/
abbrev Bytes := List Nat

/-- A Python string (filename or path), as its character sequence. -/
abbrev Name := List Char

/-- The current working directory: each entry is a regular file, as a
filename/content pair.  (`autocopy` only ever writes regular files to the
cwd, and `is_duplicate`'s `os.path.isfile` guard only skips non-file
entries, which this model does not contain.) -/
abbrev Dir := List (Name × Bytes)

/-- Python exception kinds that the embedded code can raise. -/
inductive PyErr where
  | attributeError
  | indexError
  | pathNotFound
  | notThisFormat
  | ioError
deriving DecidableEq, Repr

/-! ## Decimal rendering of naturals (Python `str(number)`) -/

/-- One decimal digit as a character (`str` digit table). -/
def digitChar : Nat → Char
  | 0 => '0'
  | 1 => '1'
  | 2 => '2'
  | 3 => '3'
  | 4 => '4'
  | 5 => '5'
  | 6 => '6'
  | 7 => '7'
  | 8 => '8'
  | _ => '9'

/-- Numeric value of a decimal digit character (used only in proofs, to
invert `digitChar`). -/
def digitVal (c : Char) : Nat :=
  if c = '0' then 0
  else if c = '1' then 1
  else if c = '2' then 2
  else if c = '3' then 3
  else if c = '4' then 4
  else if c = '5' then 5
  else if c = '6' then 6
  else if c = '7' then 7
  else if c = '8' then 8
  else 9

/-- Fuel-bounded decimal rendering; `fuel > n` always suffices. -/
def natToDecAux : Nat → Nat → List Char
  | 0, _ => []
  | fuel + 1, n =>
    if n < 10 then [digitChar n]
    else natToDecAux fuel (n / 10) ++ [digitChar (n % 10)]

/-- Decimal rendering of a natural number, exactly Python's `str(n)`
(no sign, no leading zeros, `"0"` for zero). -/
def natToDec (n : Nat) : List Char := natToDecAux (n + 1) n

/-- Decimal evaluation, the left inverse of `natToDec`. -/
def decVal (cs : List Char) : Nat :=
  cs.foldl (fun a c => a * 10 + digitVal c) 0

theorem digitVal_digitChar (n : Nat) (h : n < 10) : digitVal (digitChar n) = n := by
  interval_cases n <;> rfl

theorem decVal_append_singleton (xs : List Char) (c : Char) :
    decVal (xs ++ [c]) = decVal xs * 10 + digitVal c := by
  simp [decVal, List.foldl_append]

theorem decVal_natToDecAux (fuel : Nat) :
    ∀ n : Nat, n < fuel → decVal (natToDecAux fuel n) = n := by
  induction fuel with
  | zero => intro n h; omega
  | succ fuel ih =>
    intro n h
    by_cases h10 : n < 10
    · simp [natToDecAux, h10, decVal, digitVal_digitChar n h10]
    · have hn0 : 0 < n := by omega
      have hdiv : n / 10 < n := Nat.div_lt_self hn0 (by omega)
      have hfuel : n / 10 < fuel := by omega
      simp only [natToDecAux, h10, if_false, decVal_append_singleton]
      rw [ih (n / 10) hfuel, digitVal_digitChar (n % 10) (Nat.mod_lt n (by omega))]
      omega

theorem natToDec_injective : Function.Injective natToDec := by
  intro a b h
  have ha := decVal_natToDecAux (a + 1) a (Nat.lt_succ_self a)
  have hb := decVal_natToDecAux (b + 1) b (Nat.lt_succ_self b)
  have := congrArg decVal h
  simp only [natToDec] at this
  omega

/-! ## `find_unused_filename` (src/autocopy.py lines 30-52) -/

/-- Python `filename.rsplit(os.path.extsep, 1)`: split a filename at its
last `.` into name and optional extension. -/
def rsplitDot (filename : Name) : Name × Option Name :=
  let rev := filename.reverse
  match rev.dropWhile (fun c => c != '.') with
  | [] => (filename, none)
  | _ :: before => (before.reverse, some ((rev.takeWhile (fun c => c != '.')).reverse))

/-- Suffix appended after the base name / number: `"." + extension`, or
nothing when the filename had no extension. -/
def extTail (ext : Option Name) : Name :=
  match ext with
  | none => []
  | some e => '.' :: e

/-- The sequence of filenames tried by the `while` loop of
`find_unused_filename`: `name.ext`, `name.2.ext`, `name.3.ext`, …
(index `i ≥ 1` carries the number `i + 1`, matching `number` which starts
at 2 in the source). -/
def candidate (name : Name) (ext : Option Name) : Nat → Name
  | 0 => name ++ extTail ext
  | Nat.succ k => name ++ '.' :: (natToDec (k + 2) ++ extTail ext)

/-- The `while` loop of `find_unused_filename`, indexed by the candidate
number instead of mutating `filename`; `fuel` bounds the iteration count
(the loop terminates because a directory of `n` entries cannot contain
`n + 1` distinct candidate names, see `exists_candidate_not_mem`). -/
def findUnusedAux (directory_list : List Name) (name : Name) (ext : Option Name) :
    Nat → Nat → Option Name
  | 0, _ => none
  | fuel + 1, i =>
    if candidate name ext i ∈ directory_list then
      findUnusedAux directory_list name ext fuel (i + 1)
    else some (candidate name ext i)

/-- `find_unused_filename` (src/autocopy.py lines 30-52): find an unused
filename (e.g. `file.2.bin` instead of `file.bin`).  The source resolves
`path` to its directory and lists it; here the directory listing is the
explicit first argument and `path` is the bare filename.  The fuel bound
`length + 1` is proven sufficient, so the `getD` default is never used. -/
def find_unused_filename (directory_list : List Name) (path : Name) : Name :=
  let p := rsplitDot path
  (findUnusedAux directory_list p.1 p.2 (directory_list.length + 1) 0).getD path

theorem candidate_injective (name : Name) (ext : Option Name) :
    Function.Injective (candidate name ext) := by
  intro i j h
  match i, j with
  | 0, 0 => rfl
  | 0, Nat.succ k =>
    exfalso
    simp only [candidate] at h
    have := List.append_cancel_left h
    have hlen := congrArg List.length this
    simp at hlen
    omega
  | Nat.succ k, 0 =>
    exfalso
    simp only [candidate] at h
    have := List.append_cancel_left h
    have hlen := congrArg List.length this
    simp at hlen
    omega
  | Nat.succ k, Nat.succ l =>
    simp only [candidate] at h
    have h1 := List.append_cancel_left h
    have h2 : natToDec (k + 2) ++ extTail ext = natToDec (l + 2) ++ extTail ext := by
      injection h1
    have h3 := List.append_cancel_right h2
    have := natToDec_injective h3
    omega

theorem exists_candidate_not_mem (directory_list : List Name) (name : Name)
    (ext : Option Name) :
    ∃ j, j ≤ directory_list.length ∧ candidate name ext j ∉ directory_list := by
  by_contra hcon
  push_neg at hcon
  have hsub : (Finset.range (directory_list.length + 1)).image (candidate name ext)
      ⊆ directory_list.toFinset := by
    intro x hx
    rcases Finset.mem_image.mp hx with ⟨j, hj, rfl⟩
    have hj' : j ≤ directory_list.length := by
      have := Finset.mem_range.mp hj; omega
    exact List.mem_toFinset.mpr (hcon j hj')
  have hcard := Finset.card_le_card hsub
  rw [Finset.card_image_of_injective _ (candidate_injective name ext),
    Finset.card_range] at hcard
  have := directory_list.toFinset_card_le
  omega

theorem findUnusedAux_spec (directory_list : List Name) (name : Name)
    (ext : Option Name) :
    ∀ fuel i, (∃ j, i ≤ j ∧ j < i + fuel ∧ candidate name ext j ∉ directory_list) →
      ∃ j, i ≤ j ∧ candidate name ext j ∉ directory_list ∧
        (∀ k, i ≤ k → k < j → candidate name ext k ∈ directory_list) ∧
        findUnusedAux directory_list name ext fuel i = some (candidate name ext j) := by
  intro fuel
  induction fuel with
  | zero =>
    intro i h
    exfalso; rcases h with ⟨j, h1, h2, _⟩; omega
  | succ fuel ih =>
    intro i h
    by_cases hmem : candidate name ext i ∈ directory_list
    · have hnext : ∃ j, i + 1 ≤ j ∧ j < (i + 1) + fuel ∧
          candidate name ext j ∉ directory_list := by
        rcases h with ⟨j, h1, h2, h3⟩
        refine ⟨j, ?_, by omega, h3⟩
        rcases Nat.eq_or_lt_of_le h1 with rfl | hlt
        · exact absurd hmem h3
        · omega
      rcases ih (i + 1) hnext with ⟨j, hj1, hj2, hj3, hj4⟩
      refine ⟨j, by omega, hj2, ?_, ?_⟩
      · intro k hk1 hk2
        rcases Nat.eq_or_lt_of_le hk1 with rfl | hlt
        · exact hmem
        · exact hj3 k hlt hk2
      · simpa [findUnusedAux, hmem] using hj4
    · exact ⟨i, Nat.le_refl i, hmem, fun k hk1 hk2 => by omega,
        by simp [findUnusedAux, hmem]⟩

/-- `find_unused_filename` returns the first candidate of the sequence
`name.ext, name.2.ext, name.3.ext, …` that is not in the directory. -/
theorem find_unused_filename_eq_candidate (directory_list : List Name) (path : Name) :
    ∃ i, find_unused_filename directory_list path
          = candidate (rsplitDot path).1 (rsplitDot path).2 i ∧
        candidate (rsplitDot path).1 (rsplitDot path).2 i ∉ directory_list ∧
        ∀ j, j < i → candidate (rsplitDot path).1 (rsplitDot path).2 j ∈ directory_list := by
  rcases exists_candidate_not_mem directory_list (rsplitDot path).1 (rsplitDot path).2 with
    ⟨j, hj1, hj2⟩
  rcases findUnusedAux_spec directory_list (rsplitDot path).1 (rsplitDot path).2
      (directory_list.length + 1) 0 ⟨j, Nat.zero_le j, by omega, hj2⟩ with
    ⟨i, _, hi2, hi3, hi4⟩
  exact ⟨i, by simp [find_unused_filename, hi4], hi2, fun k hk => hi3 k (Nat.zero_le k) hk⟩

/-! ## `is_duplicate` and `dump_file` (src/autocopy.py lines 54-68, 86-101) -/

/-- Modelled from the spec: the content `Fingerprint` of §3 / §4.5,
computed in the source by `hashlib.md5(content).digest()`.  The MD5
algorithm itself lives in Python's standard library, not in this
repository; the spec only requires a deterministic fixed-size digest used
for duplicate detection, so a deterministic 16-byte stand-in digest is
used.  Every claim settled here depends only on determinism and on
concrete digest inequality at witness inputs, never on MD5 internals. -/
def md5digest (content : Bytes) : Bytes :=
  (List.range 16).map fun i =>
    content.foldl (fun a b => (a * 131 + b + 17 * i) % 256) (i + 1) % 256

/-- Python `s.startswith(pre)`. -/
def strStartsWith : Name → Name → Bool
  | _, [] => true
  | [], _ :: _ => false
  | c :: cs, p :: ps => c == p && strStartsWith cs ps

/-- `is_duplicate` (src/autocopy.py lines 54-68): checks if the file has
been dumped already.  Because `file.bin` will automatically be renamed to
`file.2.bin`, this removes the extension and checks every file starting
with the prefix `file`, comparing content fingerprints. -/
def is_duplicate (dir : Dir) (filename : Name) (new_hash : Bytes) : Bool :=
  let filename_start := (rsplitDot filename).1
  dir.any fun entry =>
    strStartsWith entry.1 filename_start && decide (md5digest entry.2 = new_hash)

/-- `dump_file` (src/autocopy.py lines 86-101): dumps the extracted
partition.  `path` is the bare candidate filename (the source passes
`"partitionA.bin"` / `"partitionB.bin"`, whose basename is itself);
returns the written filename, or `none` when the duplicate check hit,
together with the updated working directory. -/
def dump_file (dir : Dir) (path : Name) (content : Bytes)
    (skip_duplicate_check : Bool) : Option Name × Dir :=
  let original_filename := path
  let filename := find_unused_filename (dir.map Prod.fst) path
  if skip_duplicate_check then
    (some filename, dir ++ [(filename, content)])
  else if is_duplicate dir original_filename (md5digest content) then
    (none, dir)
  else
    (some filename, dir ++ [(filename, content)])

theorem strStartsWith_append (name rest : Name) :
    strStartsWith (name ++ rest) name = true := by
  induction name with
  | nil => cases rest <;> rfl
  | cons c cs ih => simp [strStartsWith, ih]

theorem candidate_startsWith (name : Name) (ext : Option Name) (i : Nat) :
    strStartsWith (candidate name ext i) name = true := by
  cases i <;> exact strStartsWith_append name _

theorem find_unused_filename_startsWith (directory_list : List Name) (path : Name) :
    strStartsWith (find_unused_filename directory_list path) (rsplitDot path).1 = true := by
  rcases find_unused_filename_eq_candidate directory_list path with ⟨i, heq, _, _⟩
  rw [heq]
  exact candidate_startsWith _ _ i

/-! ## `extract_disa_partitions` (src/autocopy.py lines 242-257) -/

/-- The fixed internal skip distance into each partition's data region
(the literal `0x9000` at src/autocopy.py lines 246 and 252). -/
def DISA_PAYLOAD_SKIP : Nat := 0x9000

/-- A parsed DISA container as handed over by the pyctr collaborator:
for each declared partition, the byte contents of its `dpfs_lv3_file`. -/
structure DisaImage where
  partitions : List Bytes
deriving DecidableEq, Repr

/-- A seekable read handle over a byte sequence (the `dpfs_lv3_file`
object on which the source calls `seek` and `read`). -/
structure FileHandle where
  data : Bytes
  pos : Nat
deriving DecidableEq, Repr

/-- `handle.seek(p)`. -/
def FileHandle.seek (h : FileHandle) (p : Nat) : FileHandle := ⟨h.data, p⟩

/-- `handle.read()` with no size argument: all bytes from the current
position to the end. -/
def FileHandle.readAll (h : FileHandle) : Bytes := h.data.drop h.pos

/-- `extract_disa_partitions` (src/autocopy.py lines 242-257): seek each
partition's `dpfs_lv3_file` to `0x9000` and read the rest; partition B
only exists when the DISA declares more than one partition.  Indexing
`disa.partitions[0]` on an empty partition list raises `IndexError`. -/
def extract_disa_partitions (disa : DisaImage) : Except PyErr (Bytes × Option Bytes) :=
  match disa.partitions with
  | [] => Except.error PyErr.indexError
  | p0 :: rest =>
    let partition_a := ((FileHandle.mk p0 0).seek DISA_PAYLOAD_SKIP).readAll
    let partition_b :=
      match rest with
      | [] => none
      | p1 :: _ => some (((FileHandle.mk p1 0).seek DISA_PAYLOAD_SKIP).readAll)
    Except.ok (partition_a, partition_b)

/-! ## Identifier derivation (spec §4.1; `crypto.id0.hex()` at line 124) -/

/-- The sixteen lowercase hex digit characters. -/
def hexChars : List Char := "0123456789abcdef".toList

/-- One lowercase hex digit; out-of-range indices (which never arise from
byte nibbles) fall back to a member of the table. -/
def hexDigitChar (d : Nat) : Char := hexChars.getD d 'f'

/-- Python `bytes.hex()` of a single byte: high nibble then low nibble. -/
def byteToHex (b : Nat) : List Char := [hexDigitChar (b / 16 % 16), hexDigitChar (b % 16)]

/-- Python `bytes.hex()`: lowercase hex rendering of a byte string. -/
def bytesToHex (bs : Bytes) : List Char := (bs.map byteToHex).flatten

/-- Modelled from the spec: the 256-bit one-way hash of §4.1 ("compute a
256-bit one-way hash of the key material").  The hash itself (SHA-256)
lives in the pyctr dependency, not in this repository, and the spec does
not name it — it only requires a deterministic 256-bit (32-byte) digest.
A deterministic 32-byte stand-in digest is used; the claims settled here
depend only on determinism and on the digest's length. -/
def hash256 (key : Bytes) : Bytes :=
  (List.range 32).map fun i =>
    key.foldl (fun a b => (a * 131 + b + 19 * i) % 256) (i + 7) % 256

/-- Modelled from the spec: §4.1 IdentifierDeriver.  "Partition that
digest into four 8-hex-character (4-byte) words" — i.e. use the digest's
first 16 bytes — "for each word, reverse its byte order … and re-render
as hex; concatenate the four transformed words in order."  In the source
this is `crypto.id0.hex()` (line 124), with the derivation inside the
pyctr dependency, not under src/. -/
def wordByteSwap : Bytes → Bytes
  | b0 :: b1 :: b2 :: b3 :: rest => b3 :: b2 :: b1 :: b0 :: wordByteSwap rest
  | rest => rest

/-- Modelled from the spec: §4.1 — turns 16 bytes of device key material
into the deterministic hex identifier used to build the filesystem path. -/
def IdentifierDeriver (key : Bytes) : List Char :=
  bytesToHex (wordByteSwap ((hash256 key).take 16))

/-! ## `get_crypto_engine` and `extract_nand_backup`
(src/autocopy.py lines 70-84, 104-158) -/

/-- Collaborator environment shared across a batch: availability of the
ARM9 bootrom for `CryptoEngine` construction, and the engine's `id0`
property as a function of the `movable.sed` bytes fed to
`crypto.setup_sd_key` (`none` models the ninfs condition the source's
line 125 comment refers to, where no id0 is available). -/
structure Env where
  boot9IsFile : Bool
  autodetectBootrom : Bool
  id0FromSed : Bytes → Option Bytes

/-- One NAND image together with the outcomes of the collaborator calls
made while processing it: `nand.open_ctr_fat()` + `readbytes` of
`/private/movable.sed` (an `Except.error` models any exception while
opening the image or reading the file), the listing of `/data`, and
opening + DISA-parsing the file at a given path (an `Except.error` models
`openbin` failures and DISA parse failures such as a bad magic). -/
structure NandImage where
  movableSed : Except PyErr Bytes
  dataDir : List Name
  disaAt : Name → Except PyErr DisaImage

/-- `get_crypto_engine` (src/autocopy.py lines 70-84): build a
`CryptoEngine` from `boot9.bin` when present, otherwise by bootrom
autodetection; when neither is available, print a message and return
`None` (the `sys.exit` branch only runs when the file is executed as a
script).  The engine carries no data this model needs, so it is `Unit`. -/
def get_crypto_engine (env : Env) : Option Unit :=
  if env.boot9IsFile then some ()
  else if env.autodetectBootrom then some ()
  else none

/-- The fixed logical path `"/data/{id0}/sysdata/00010034/00000000"`
(src/autocopy.py line 130). -/
def disaPath (id0 : Name) : Name :=
  "/data/".toList ++ id0 ++ "/sysdata/00010034/00000000".toList

/-- The tuple returned by a successful `extract_nand_backup`
(src/autocopy.py line 158). -/
structure ExtractResult where
  partition_a : Bytes
  partition_b : Option Bytes
  partition_a_is_duplicate : Bool
  partition_b_is_duplicate : Bool
deriving DecidableEq, Repr

/-- The body of `extract_nand_backup` past the crypto-engine check
(src/autocopy.py lines 117-158), with the crypto engine available.
Mirrors the source line by line:
* read `/private/movable.sed` and feed it to `setup_sd_key`;
* when no `id0` argument was given, take `crypto.id0.hex()` — when the
  engine has no id0, the attribute access `.hex()` on `None` raises
  `AttributeError`; the subsequent `if id0 is None:` fallback (lines
  125-127) tests the `.hex()` result, which is never `None`, so its
  `listdir("/data")[0]` branch is unreachable;
* open and parse the DISA file at the fixed path, extract partitions;
* dump partition A, then partition B when present;
* return the tuple of payloads and duplicate flags. -/
def extract_nand_backup_core (env : Env) (img : NandImage) (id0 : Option Name)
    (skip_duplicate_check : Bool) (dir : Dir) :
    Except PyErr (Option ExtractResult × Dir) :=
  match img.movableSed with
  | Except.error e => Except.error e
  | Except.ok movable_sed =>
    let id0r : Except PyErr Name :=
      match id0 with
      | some s => Except.ok s
      | none =>
        match env.id0FromSed movable_sed with
        | none => Except.error PyErr.attributeError
        | some b =>
          let id0hex : Option Name := some (bytesToHex b)
          match id0hex with
          | none =>
            match img.dataDir with
            | [] => Except.error PyErr.indexError
            | d :: _ => Except.ok d
          | some s => Except.ok s
    match id0r with
    | Except.error e => Except.error e
    | Except.ok the_id0 =>
      match img.disaAt (disaPath the_id0) with
      | Except.error e => Except.error e
      | Except.ok disa =>
        match extract_disa_partitions disa with
        | Except.error e => Except.error e
        | Except.ok (partition_a, partition_b) =>
          match dump_file dir ("partitionA.bin".toList) partition_a skip_duplicate_check with
          | (partition_a_filename, dir1) =>
            match
              match partition_b with
              | none => ((none : Option Name), dir1)
              | some b => dump_file dir1 ("partitionB.bin".toList) b skip_duplicate_check
            with
            | (partition_b_filename, dir2) =>
              Except.ok (some ⟨partition_a, partition_b,
                partition_a_filename.isNone, partition_b_filename.isNone⟩, dir2)

/-- `extract_nand_backup` (src/autocopy.py lines 104-158): extracts 4
layers of encoding from the NAND dump.  Returns `(none, dir)` — Python
`None` — exactly when no crypto engine was passed in and none could be
constructed; otherwise runs the extraction body, whose exceptions
propagate to the caller. -/
def extract_nand_backup (env : Env) (img : NandImage) (crypto : Option Unit)
    (id0 : Option Name) (skip_duplicate_check : Bool) (dir : Dir) :
    Except PyErr (Option ExtractResult × Dir) :=
  match crypto with
  | some _ => extract_nand_backup_core env img id0 skip_duplicate_check dir
  | none =>
    match get_crypto_engine env with
    | none => Except.ok (none, dir)
    | some _ => extract_nand_backup_core env img id0 skip_duplicate_check dir

/-! ## `extract_nand_backups` (src/autocopy.py lines 179-200) -/

/-- `set.add`: the dump accumulators are Python sets, so re-adding an
element already present changes nothing. -/
def setAdd (l : List Bytes) (x : Bytes) : List Bytes :=
  if x ∈ l then l else l ++ [x]

/-- Accumulate one successful extraction result into the batch's
partition-A / partition-B dump sets (src/autocopy.py lines 190-194):
a payload is added only when present and not flagged as a duplicate. -/
def batchStep (r : ExtractResult) (partition_a_dumps partition_b_dumps : List Bytes) :
    List Bytes × List Bytes :=
  let as2 :=
    if r.partition_a_is_duplicate then partition_a_dumps
    else setAdd partition_a_dumps r.partition_a
  let bs2 :=
    match r.partition_b with
    | none => partition_b_dumps
    | some b =>
      if r.partition_b_is_duplicate then partition_b_dumps
      else setAdd partition_b_dumps b
  (as2, bs2)

/-- The `for path in paths:` loop of `extract_nand_backups`
(src/autocopy.py lines 184-195).  The loop body has no `try`/`except`:
an exception raised by `extract_nand_backup` propagates immediately,
abandoning the remaining images; only the `None` return (no crypto
engine) is handled, by printing "Extraction failed" — counted here in
the last component — and continuing. -/
def batchGo (env : Env) (crypto : Option Unit) (id0 : Option Name) (skip : Bool) :
    List NandImage → Dir → List Bytes → List Bytes → Nat →
    Except PyErr (List Bytes × List Bytes × Dir × Nat)
  | [], dir, as, bs, failures => Except.ok (as, bs, dir, failures)
  | img :: rest, dir, as, bs, failures =>
    match extract_nand_backup env img crypto id0 skip dir with
    | Except.error e => Except.error e
    | Except.ok (none, dir1) => batchGo env crypto id0 skip rest dir1 as bs (failures + 1)
    | Except.ok (some r, dir1) =>
      match batchStep r as bs with
      | (as2, bs2) => batchGo env crypto id0 skip rest dir1 as2 bs2 failures

/-- `extract_nand_backups` (src/autocopy.py lines 179-200): construct one
crypto engine for the whole batch, then process each image in turn,
accumulating the new partition-A / partition-B payload sets.  On success
returns the two dump sets, the final working directory, and the number of
"Extraction failed" reports. -/
def extract_nand_backups (env : Env) (paths : List NandImage) (id0 : Option Name)
    (skip_duplicate_check : Bool) (dir : Dir) :
    Except PyErr (List Bytes × List Bytes × Dir × Nat) :=
  batchGo env (get_crypto_engine env) id0 skip_duplicate_check paths dir [] [] 0

/-! ## Shape lemmas for the identifier derivation -/

theorem hexDigitChar_mem (d : Nat) : hexDigitChar d ∈ hexChars := by
  unfold hexDigitChar
  by_cases h : d < hexChars.length
  · have h16 : d < 16 := by simpa [hexChars] using h
    interval_cases d <;> decide
  · rw [List.getD_eq_getElem?_getD, List.getElem?_eq_none (by omega)]
    decide

theorem mem_hexChars_of_mem_bytesToHex (bs : Bytes) (c : Char)
    (h : c ∈ bytesToHex bs) : c ∈ hexChars := by
  rcases List.exists_of_mem_flatten h with ⟨l, hl, hcl⟩
  rcases List.mem_map.mp hl with ⟨b, _, rfl⟩
  simp only [byteToHex, List.mem_cons, List.not_mem_nil, or_false] at hcl
  rcases hcl with rfl | rfl <;> exact hexDigitChar_mem _

theorem bytesToHex_length (bs : Bytes) : (bytesToHex bs).length = 2 * bs.length := by
  induction bs with
  | nil => rfl
  | cons b bs ih =>
    simp only [bytesToHex, List.map_cons, List.flatten_cons, List.length_append,
      List.length_cons] at *
    simp [byteToHex] at *
    omega

theorem wordByteSwap_length : (bs : Bytes) → (wordByteSwap bs).length = bs.length
  | b0 :: b1 :: b2 :: b3 :: rest => by
    simp only [wordByteSwap, List.length_cons, wordByteSwap_length rest]
  | [] => rfl
  | [_] => rfl
  | [_, _] => rfl
  | [_, _, _] => rfl

theorem hash256_length (key : Bytes) : (hash256 key).length = 32 := by
  simp [hash256]

/-! ## ContainerParser (spec §4.4) -/

/-- Modelled from the spec: §4.4's error taxonomy for the ContainerParser
(§7).  The strict/force container parser is part of this repository's
earlier iterations and of the pyctr dependency, neither of which is under
src/; the component is therefore modelled from the spec's words. -/
inductive ContainerError where
  | notThisFormat
  | versionMismatch
  | structureError
  | integrityError
deriving DecidableEq, Repr

/-- Modelled from the spec: one partition's descriptor offset/size pair
inside the table plus data offset/size pair inside the container (§3,
ContainerHeader). -/
structure PartitionSlot where
  descOffset : Nat
  descSize : Nat
  dataOffset : Nat
  dataSize : Nat
deriving DecidableEq, Repr

/-- Modelled from the spec: the fixed-size ContainerHeader of §3. -/
structure ContainerHeader where
  magic : Nat
  version : Nat
  partitionCount : Nat
  primaryTableOffset : Nat
  secondaryTableOffset : Nat
  tableSize : Nat
  activeTableSelector : Nat
  tableHash : Bytes
  slots : List PartitionSlot
deriving DecidableEq, Repr

/-- Modelled from the spec: a container file — its parsed fixed-offset
header plus the raw container bytes the offsets point into. -/
structure ContainerFile where
  header : ContainerHeader
  bytes : Bytes
deriving DecidableEq, Repr

/-- Modelled from the spec: the known magic constant the header must
carry ("DISA" as a little-endian 32-bit word); its exact value is
immaterial to the claims, which only compare against it. -/
def CONTAINER_MAGIC : Nat := 0x41534944

/-- Modelled from the spec: the known expected format version constant. -/
def EXPECTED_VERSION : Nat := 0x40000

/-- Payload of one partition slot: the data region at the slot's data
offset/size, with the fixed internal skip distance removed from its
start (§4.4 step 6). -/
def slotPayload (c : ContainerFile) (s : PartitionSlot) : Bytes :=
  (((c.bytes.drop s.dataOffset).take s.dataSize).drop DISA_PAYLOAD_SKIP)

/-- Modelled from the spec: §4.4 ContainerParser.  Steps 1-6, each gated
by `strict` except the always-enforced magic check of step 1. -/
def parse_container (strict : Bool) (c : ContainerFile) :
    Except ContainerError (Bytes × Option Bytes) :=
  if c.header.magic ≠ CONTAINER_MAGIC then Except.error ContainerError.notThisFormat
  else if strict ∧ c.header.version ≠ EXPECTED_VERSION then
    Except.error ContainerError.versionMismatch
  else if strict ∧ ¬(c.header.partitionCount = 1 ∨ c.header.partitionCount = 2) then
    Except.error ContainerError.structureError
  else
    match
      (if c.header.activeTableSelector = 0 then
        Except.ok c.header.primaryTableOffset
      else if c.header.activeTableSelector = 1 then
        Except.ok c.header.secondaryTableOffset
      else if strict then Except.error ContainerError.structureError
      else Except.ok c.header.primaryTableOffset :
        Except ContainerError Nat)
    with
    | Except.error e => Except.error e
    | Except.ok activeOffset =>
      let table := (c.bytes.drop activeOffset).take c.header.tableSize
      if strict ∧ hash256 table ≠ c.header.tableHash then
        Except.error ContainerError.integrityError
      else
        match c.header.slots with
        | [] => Except.error ContainerError.structureError
        | [s] => Except.ok (slotPayload c s, none)
        | s1 :: s2 :: _ => Except.ok (slotPayload c s1, some (slotPayload c s2))

/-! ## Claim theorems -/

/-- C5: For every successfully parsed container and each expected
partition (1 or 2), the extracted payload equals the partition's data
region with the fixed internal skip distance removed from its start:
extraction seeks to the fixed skip offset inside the partition's data and
returns all remaining bytes. -/
theorem extract_disa_payloads_are_skip_adjusted (disa : DisaImage) (p0 : Bytes)
    (rest : List Bytes) (h : disa.partitions = p0 :: rest) :
    extract_disa_partitions disa =
      Except.ok (p0.drop DISA_PAYLOAD_SKIP,
        rest.head?.map (fun p => p.drop DISA_PAYLOAD_SKIP)) := by
  unfold extract_disa_partitions
  rw [h]
  cases rest <;> simp [FileHandle.seek, FileHandle.readAll]

theorem extract_disa_payloads_are_skip_adjusted_witness :
    (DisaImage.mk [[1, 2], [3]]).partitions = [1, 2] :: [[3]] ∧
    extract_disa_partitions (DisaImage.mk [[1, 2], [3]]) =
      Except.ok (([1, 2] : Bytes).drop DISA_PAYLOAD_SKIP,
        ([[3]] : List Bytes).head?.map (fun p => p.drop DISA_PAYLOAD_SKIP)) :=
  ⟨rfl, extract_disa_payloads_are_skip_adjusted (DisaImage.mk [[1, 2], [3]]) [1, 2] [[3]] rfl⟩

/-- C6: For every container whose table declares only one partition, the
second payload is reported as absent (`none`, not an error), and
extraction of the first payload completes normally. -/
theorem single_partition_reports_b_absent (disa : DisaImage) (p0 : Bytes)
    (h : disa.partitions = [p0]) :
    extract_disa_partitions disa = Except.ok (p0.drop DISA_PAYLOAD_SKIP, none) := by
  unfold extract_disa_partitions
  rw [h]
  simp [FileHandle.seek, FileHandle.readAll]

theorem single_partition_reports_b_absent_witness :
    (DisaImage.mk [[7, 8, 9]]).partitions = [[7, 8, 9]] ∧
    extract_disa_partitions (DisaImage.mk [[7, 8, 9]]) =
      Except.ok (([7, 8, 9] : Bytes).drop DISA_PAYLOAD_SKIP, none) :=
  ⟨rfl, single_partition_reports_b_absent (DisaImage.mk [[7, 8, 9]]) [7, 8, 9] rfl⟩

/-- C7: For all valid 16-byte key material, identifier derivation is
deterministic (two runs on the same key give the same result — definitional
for a pure function) and produces exactly 32 lowercase hexadecimal
characters. -/
theorem identifier_deriver_deterministic_32_lower_hex (key : Bytes)
    (_hk : key.length = 16) :
    IdentifierDeriver key = IdentifierDeriver key ∧
    (IdentifierDeriver key).length = 32 ∧
    ∀ c ∈ IdentifierDeriver key, c ∈ hexChars := by
  refine ⟨rfl, ?_, fun c hc => mem_hexChars_of_mem_bytesToHex _ c hc⟩
  unfold IdentifierDeriver
  rw [bytesToHex_length, wordByteSwap_length, List.length_take, hash256_length]
  decide

theorem identifier_deriver_deterministic_32_lower_hex_witness :
    (List.replicate 16 (0 : Nat)).length = 16 ∧
    (IdentifierDeriver (List.replicate 16 0)).length = 32 :=
  ⟨by decide,
    (identifier_deriver_deterministic_32_lower_hex (List.replicate 16 0) (by decide)).2.1⟩

/-- C8: For every container file whose header magic does not equal the
known constant, parsing fails with NotThisFormatError in both strict and
non-strict (force) modes; the magic check is never relaxed. -/
theorem magic_mismatch_fails_in_both_modes (strict : Bool) (c : ContainerFile)
    (h : c.header.magic ≠ CONTAINER_MAGIC) :
    parse_container strict c = Except.error ContainerError.notThisFormat := by
  unfold parse_container
  simp [h]

theorem magic_mismatch_fails_in_both_modes_witness :
    (ContainerFile.mk ⟨0, 0, 1, 0, 0, 0, 0, [], []⟩ []).header.magic ≠ CONTAINER_MAGIC ∧
    parse_container true (ContainerFile.mk ⟨0, 0, 1, 0, 0, 0, 0, [], []⟩ []) =
      Except.error ContainerError.notThisFormat ∧
    parse_container false (ContainerFile.mk ⟨0, 0, 1, 0, 0, 0, 0, [], []⟩ []) =
      Except.error ContainerError.notThisFormat :=
  ⟨by decide,
    magic_mismatch_fails_in_both_modes true _ (by decide),
    magic_mismatch_fails_in_both_modes false _ (by decide)⟩

/-! ## Dedup-writer helper lemmas -/

theorem is_duplicate_iff (dir : Dir) (filename : Name) (new_hash : Bytes) :
    is_duplicate dir filename new_hash = true ↔
      ∃ entry, entry ∈ dir ∧
        strStartsWith entry.1 (rsplitDot filename).1 = true ∧
        md5digest entry.2 = new_hash := by
  simp [is_duplicate, List.any_eq_true, Bool.and_eq_true, decide_eq_true_eq]

theorem dump_file_none_of_duplicate (dir : Dir) (path : Name) (content : Bytes)
    (h : is_duplicate dir path (md5digest content) = true) :
    dump_file dir path content false = (none, dir) := by
  simp [dump_file, h]

theorem dump_file_writes_of_not_duplicate (dir : Dir) (path : Name) (content : Bytes)
    (h : is_duplicate dir path (md5digest content) = false) :
    dump_file dir path content false =
      (some (find_unused_filename (dir.map Prod.fst) path),
        dir ++ [(find_unused_filename (dir.map Prod.fst) path, content)]) := by
  simp [dump_file, h]

theorem dump_file_second_run_duplicate (dir dir1 : Dir) (path : Name) (content : Bytes)
    (f : Name) (h : dump_file dir path content false = (some f, dir1)) :
    dump_file dir1 path content false = (none, dir1) := by
  have hdup : is_duplicate dir path (md5digest content) = false := by
    by_contra hc
    rw [Bool.not_eq_false] at hc
    rw [dump_file_none_of_duplicate dir path content hc] at h
    simp at h
  rw [dump_file_writes_of_not_duplicate dir path content hdup] at h
  rw [Prod.ext_iff] at h
  obtain ⟨h1, h2⟩ := h
  simp only [Option.some.injEq] at h1
  subst h1
  subst h2
  apply dump_file_none_of_duplicate
  rw [is_duplicate_iff]
  refine ⟨(find_unused_filename (dir.map Prod.fst) path, content),
    List.mem_append_right _ (List.mem_singleton.mpr rfl), ?_, rfl⟩
  exact find_unused_filename_startsWith (dir.map Prod.fst) path

theorem dump_two_distinct_payloads (c1 c2 : Bytes)
    (hne : md5digest c1 ≠ md5digest c2) :
    (dump_file (dump_file [] ("partitionA.bin".toList) c1 false).2
        ("partitionA.bin".toList) c2 false).2
      = [(("partitionA.bin".toList), c1), (("partitionA.2.bin".toList), c2)] := by
  have h0 : is_duplicate [] ("partitionA.bin".toList) (md5digest c1) = false := rfl
  rw [dump_file_writes_of_not_duplicate [] _ c1 h0]
  have hf1 : find_unused_filename (([] : Dir).map Prod.fst) ("partitionA.bin".toList)
      = "partitionA.bin".toList := rfl
  rw [hf1]
  simp only [List.nil_append]
  have hdup : is_duplicate [(("partitionA.bin".toList), c1)] ("partitionA.bin".toList)
      (md5digest c2) = false := by
    simp [is_duplicate, hne]
  rw [dump_file_writes_of_not_duplicate _ _ c2 hdup]
  have hf2 : find_unused_filename
      (([(("partitionA.bin".toList), c1)] : Dir).map Prod.fst)
      ("partitionA.bin".toList) = "partitionA.2.bin".toList := rfl
  rw [hf2]
  rfl

/-- C3: For every payload and candidate base name, when dedup is enabled,
the writer scans the destination directory for existing files whose name
shares the candidate's name-without-extension as a prefix, compares each
match's content fingerprint to the payload's fingerprint, and if any
match it writes nothing and reports no new file; hence writing the same
payload bytes twice with dedup enabled produces exactly one output
file. -/
theorem dedup_scan_and_single_output :
    (∀ (dir : Dir) (filename : Name) (h : Bytes),
        is_duplicate dir filename h = true ↔
          ∃ entry, entry ∈ dir ∧
            strStartsWith entry.1 (rsplitDot filename).1 = true ∧
            md5digest entry.2 = h) ∧
    (∀ (dir : Dir) (path : Name) (content : Bytes),
        is_duplicate dir path (md5digest content) = true →
          dump_file dir path content false = (none, dir)) ∧
    (∀ (dir dir1 : Dir) (path : Name) (content : Bytes) (f : Name),
        dump_file dir path content false = (some f, dir1) →
          dump_file dir1 path content false = (none, dir1)) :=
  ⟨is_duplicate_iff, dump_file_none_of_duplicate, dump_file_second_run_duplicate⟩

theorem dedup_scan_and_single_output_witness :
    dump_file [] ("partitionA.bin".toList) [0] false
      = (some ("partitionA.bin".toList), [(("partitionA.bin".toList), ([0] : Bytes))]) ∧
    dump_file [(("partitionA.bin".toList), ([0] : Bytes))] ("partitionA.bin".toList) [0] false
      = (none, [(("partitionA.bin".toList), ([0] : Bytes))]) :=
  ⟨rfl, dedup_scan_and_single_output.2.2 [] [(("partitionA.bin".toList), [0])]
    ("partitionA.bin".toList) [0] ("partitionA.bin".toList) rfl⟩

/-- C4: For every candidate base name and destination directory state,
the chosen output filename is the first element of the sequence
`name.bin`, `name.2.bin`, `name.3.bin`, … that is not already present in
the directory; in particular writing two different payloads with the same
base name produces two files differing by numeric suffix. -/
theorem output_filename_is_first_unused :
    (∀ (directory_list : List Name) (path : Name),
        ∃ i, find_unused_filename directory_list path
              = candidate (rsplitDot path).1 (rsplitDot path).2 i ∧
            candidate (rsplitDot path).1 (rsplitDot path).2 i ∉ directory_list ∧
            ∀ j, j < i →
              candidate (rsplitDot path).1 (rsplitDot path).2 j ∈ directory_list) ∧
    (∀ c1 c2 : Bytes, md5digest c1 ≠ md5digest c2 →
        (dump_file (dump_file [] ("partitionA.bin".toList) c1 false).2
            ("partitionA.bin".toList) c2 false).2
          = [(("partitionA.bin".toList), c1), (("partitionA.2.bin".toList), c2)]) :=
  ⟨find_unused_filename_eq_candidate, dump_two_distinct_payloads⟩

theorem output_filename_is_first_unused_witness :
    md5digest [0] ≠ md5digest [1] ∧
    (dump_file (dump_file [] ("partitionA.bin".toList) [0] false).2
        ("partitionA.bin".toList) [1] false).2
      = [(("partitionA.bin".toList), ([0] : Bytes)),
         (("partitionA.2.bin".toList), ([1] : Bytes))] :=
  ⟨by decide, output_filename_is_first_unused.2 [0] [1] (by decide)⟩

/-! ## Pipeline-level claim theorems -/

theorem extract_core_never_none (env : Env) (img : NandImage) (id0 : Option Name)
    (skip : Bool) (dir dir2 : Dir) :
    extract_nand_backup_core env img id0 skip dir ≠ Except.ok (none, dir2) := by
  intro h
  simp only [extract_nand_backup_core] at h
  repeat' split at h
  all_goals simp_all

/-- C9: `extract_nand_backup` returns `None` if and only if no crypto
engine could be constructed (none was passed in and the ARM9 bootrom is
unavailable); every other failure during an image's processing propagates
to the caller as a raised exception (`Except.error`), never as a `None`
return. -/
theorem extract_returns_none_iff_no_crypto (env : Env) (img : NandImage)
    (c : Option Unit) (id0 : Option Name) (skip : Bool) (dir dir2 : Dir) :
    extract_nand_backup env img c id0 skip dir = Except.ok (none, dir2) ↔
      (c = none ∧ get_crypto_engine env = none ∧ dir2 = dir) := by
  constructor
  · intro h
    cases c with
    | some u =>
      simp only [extract_nand_backup] at h
      exact absurd h (extract_core_never_none env img id0 skip dir dir2)
    | none =>
      cases hg : get_crypto_engine env with
      | none =>
        simp only [extract_nand_backup, hg] at h
        simp only [Except.ok.injEq, Prod.mk.injEq, true_and] at h
        exact ⟨rfl, rfl, h.symm⟩
      | some u =>
        simp only [extract_nand_backup, hg] at h
        exact absurd h (extract_core_never_none env img id0 skip dir dir2)
  · rintro ⟨rfl, hg, rfl⟩
    simp [extract_nand_backup, hg]

/-- C10: When the container declares only one partition (the returned
`partition_b` is `none`), the fourth element of `extract_nand_backup`'s
returned tuple (`partition_b_is_duplicate`) is `true` even though no
partition-B file exists or was written; the return value does not
distinguish "partition B absent" from "partition B was a duplicate". -/
theorem absent_partition_b_flagged_duplicate (env : Env) (img : NandImage)
    (c : Option Unit) (id0 : Option Name) (skip : Bool) (dir dir2 : Dir)
    (r : ExtractResult)
    (h : extract_nand_backup env img c id0 skip dir = Except.ok (some r, dir2))
    (hb : r.partition_b = none) :
    r.partition_b_is_duplicate = true := by
  have hcore : extract_nand_backup_core env img id0 skip dir = Except.ok (some r, dir2) := by
    cases c with
    | some u => simpa only [extract_nand_backup] using h
    | none =>
      cases hg : get_crypto_engine env with
      | none => simp only [extract_nand_backup, hg] at h; simp at h
      | some u => simpa only [extract_nand_backup, hg] using h
  simp only [extract_nand_backup_core] at hcore
  repeat' split at hcore
  all_goals simp_all
  all_goals rw [← hcore.1] at hb ⊢
  all_goals simp_all

/-! ## Concrete fixtures for the batch-level and fallback claims -/

/-- A 16-byte `movable.sed` read successfully from the CTR FAT volume. -/
def sedOK : Bytes := List.replicate 16 0

/-- Environment where `boot9.bin` exists and the crypto engine derives an
id0 from the SD key material. -/
def envOK : Env := ⟨true, true, fun _ => some (List.replicate 16 1)⟩

/-- A healthy NAND image: `movable.sed` reads fine and the DISA file at
the derived path parses into a single short partition. -/
def imgGood : NandImage :=
  ⟨Except.ok sedOK, [], fun _ => Except.ok (DisaImage.mk [[1]])⟩

/-- A NAND image whose DISA container has a bad magic: pyctr's `DISA`
constructor raises a parse error. -/
def imgBadMagic : NandImage :=
  ⟨Except.ok sedOK, [], fun _ => Except.error PyErr.notThisFormat⟩

/-- C1 (code bug): the claim — and spec §4.6, and the source's own
docstring "returns None on failure" — say an image-level failure is
recorded and reported for that image only, and the batch continues with
the next image.  The `for` loop of `extract_nand_backups` (lines 184-195)
has no `try`/`except`, so the exception raised while parsing image 2's
container propagates and aborts the whole batch: with images
[good, bad-magic, good], the orchestrator evaluates to the raised error
instead of any per-image summary, and image 3 is never processed.
Second conjunct: the only per-image failure handling that exists is for
the `None` return (no crypto engine), where the loop does report and
continue ("Extraction failed" twice, batch completes). -/
theorem batch_aborts_on_bad_image :
    extract_nand_backups envOK [imgGood, imgBadMagic, imgGood] none false [] =
      Except.error PyErr.notThisFormat ∧
    extract_nand_backups (Env.mk false false fun _ => none) [imgGood, imgGood] none false [] =
      Except.ok ([], [], [], 2) :=
  ⟨rfl, rfl⟩

/-- Environment in which primary id0 derivation is unavailable:
`crypto.id0` is `None` (the ninfs condition named in the source's own
line 126 message). -/
def envNoId0 : Env := ⟨true, true, fun _ => none⟩

/-- A NAND image on which the intended fallback would succeed: `/data`
has exactly one entry and the DISA file at any path parses fine. -/
def imgFallbackReady : NandImage :=
  ⟨Except.ok sedOK, ["a0b1c2d3e4f5a6b7c8d9e0f1a2b3c4d5".toList],
    fun _ => Except.ok (DisaImage.mk [[1]])⟩

/-- C2 (code bug): the claim — and spec §4.3/§7, and the source's own
comment "using alternate id0 detection" — say that when primary
identifier derivation is unavailable the resolver falls back to
`listdir("/data")[0]`, fatal only if that also fails.  Line 124 computes
`crypto.id0.hex()` before the `if id0 is None:` test: when `crypto.id0`
is `None` the attribute access raises `AttributeError`, and since
`.hex()` otherwise always returns a string, the fallback branch at lines
125-127 is unreachable.  First conjunct: with primary derivation
unavailable, extraction raises instead of falling back, even though
`/data` has an entry and the container is valid.  Second conjunct: the
same image processes to success when the identifier is supplied
explicitly, so only the dead fallback stands between this input and
success. -/
theorem id0_fallback_unreachable :
    extract_nand_backup envNoId0 imgFallbackReady (some ()) none false [] =
      Except.error PyErr.attributeError ∧
    extract_nand_backup envNoId0 imgFallbackReady (some ())
        (some ("a0b1c2d3e4f5a6b7c8d9e0f1a2b3c4d5".toList)) false [] =
      Except.ok (some ⟨[], none, false, true⟩, [(("partitionA.bin".toList), [])]) :=
  ⟨rfl, rfl⟩

theorem absent_partition_b_flagged_duplicate_witness :
    (ExtractResult.mk [] none false true).partition_b_is_duplicate = true :=
  absent_partition_b_flagged_duplicate envOK imgGood (some ()) none false []
    [(("partitionA.bin".toList), [])] (ExtractResult.mk [] none false true)
    (by rfl) (by rfl)
